import Mathlib

/-!
Shallow embedding of `src/05-objects-tasks.js`: the `Rectangle` factory and
the CSS selector builder (class `Builder`, facade `cssSelectorBuilder`,
helpers `orderError` / `countError`), together with theorems settling the
spec claims about them.

JavaScript exceptions are modelled as explicit `SelError` values: every
appender call returns the post-call state of the accumulator together with
`none` (normal return) or `some e` (the call threw `e`), reflecting that a
JS `throw` leaves the already-performed field mutations in place.
-/

/-- The two error kinds the builder can throw: `orderError` for grammar-order
violations, `countError` for cardinality violations (from the source's
`orderError()` and `countError()` helpers). -/
inductive SelError where
  | orderError
  | countError
deriving DecidableEq, Repr

/-- The six grammar stages, in the source's fixed order. The source encodes
them as the numbers 1..6 (see `Stage.num`); `cls` stands for the JS method
named `class`, which is a reserved word in Lean. -/
inductive Stage where
  | element
  | id
  | cls
  | attr
  | pseudoClass
  | pseudoElement
deriving DecidableEq, Repr

/-- The numeric stage identifier the source passes to `checkQueue`
(element = 1, id = 2, class = 3, attribute = 4, pseudo-class = 5,
pseudo-element = 6). -/
def Stage.num : Stage → Nat
  | .element => 1
  | .id => 2
  | .cls => 3
  | .attr => 4
  | .pseudoClass => 5
  | .pseudoElement => 6

/-- State of one `Builder` instance: the three cardinality counters
(`elements`, `ids`, `pseudoElements`), the last stage number (`callQueue`)
and the rendered text (`values`), exactly the fields the JS constructor
initialises. -/
structure Builder where
  elements : Nat
  ids : Nat
  pseudoElements : Nat
  callQueue : Nat
  values : String
deriving DecidableEq, Repr

/-- The JS `Builder` constructor `constructor(value, first)` as invoked by the
facade (which always supplies both arguments): starts every counter at 0,
then bumps `elements` / `ids` / `pseudoElements` when `first` is 1 / 2 / 6,
and seeds `callQueue` and `values`. -/
def Builder.mkB (value : String) (first : Nat) : Builder :=
  { elements := if first = 1 then 1 else 0
    ids := if first = 2 then 1 else 0
    pseudoElements := if first = 6 then 1 else 0
    callQueue := first
    values := value }

/-- One appender call (`element` / `id` / `class` / `attr` / `pseudoClass` /
`pseudoElement` method of `Builder`), returning the accumulator state at the
moment the call returns or throws, paired with the thrown error if any.

Mirrors the JS statement order: `checkQueue(n)` throws `orderError` before
assigning `callQueue`; for the singleton stages the counter is incremented
before the `> 1` test throws `countError`; `values` is appended last. -/
def Builder.step (b : Builder) (s : Stage) (v : String) : Builder × Option SelError :=
  if s.num < b.callQueue then (b, some SelError.orderError)
  else
    let b1 := { b with callQueue := s.num }
    match s with
    | .element =>
        let b2 := { b1 with elements := b1.elements + 1 }
        if b2.elements > 1 then (b2, some SelError.countError)
        else ({ b2 with values := b2.values ++ v }, none)
    | .id =>
        let b2 := { b1 with ids := b1.ids + 1 }
        if b2.ids > 1 then (b2, some SelError.countError)
        else ({ b2 with values := b2.values ++ "#" ++ v }, none)
    | .cls => ({ b1 with values := b1.values ++ "." ++ v }, none)
    | .attr => ({ b1 with values := b1.values ++ "[" ++ v ++ "]" }, none)
    | .pseudoClass => ({ b1 with values := b1.values ++ ":" ++ v }, none)
    | .pseudoElement =>
        let b2 := { b1 with pseudoElements := b1.pseudoElements + 1 }
        if b2.pseudoElements > 1 then (b2, some SelError.countError)
        else ({ b2 with values := b2.values ++ "::" ++ v }, none)

/-- The JS method `Builder.prototype.stringify`: returns `this.values` verbatim. -/
def Builder.stringify (b : Builder) : String := b.values

/-- A stringifiable selector: either a `Builder` accumulator or the anonymous
object returned by `cssSelectorBuilder.combine` (two operand selectors and a
combinator token). -/
inductive Selector where
  | builder (b : Builder)
  | combined (left : Selector) (combinator : String) (right : Selector)

/-- The `stringify()` capability of a selector: a `Builder` returns its `values`; a combined
node returns `selector1.stringify() + ' ' + combinator + ' ' +
selector2.stringify()`. -/
def Selector.stringify : Selector → String
  | .builder b => b.stringify
  | .combined l c r => l.stringify ++ " " ++ c ++ " " ++ r.stringify

/-- Facade entry `cssSelectorBuilder.element(value)`: `new Builder(value, 1)`. -/
def cssSelectorBuilder.element (value : String) : Builder := Builder.mkB value 1

/-- Facade entry `cssSelectorBuilder.id(value)`: `new Builder('#' + value, 2)`. -/
def cssSelectorBuilder.id (value : String) : Builder := Builder.mkB ("#" ++ value) 2

/-- Facade entry `cssSelectorBuilder.class(value)`: `new Builder('.' + value, 3)`. -/
def cssSelectorBuilder.cls (value : String) : Builder := Builder.mkB ("." ++ value) 3

/-- Facade entry `cssSelectorBuilder.attr(value)`: `new Builder('[' + value + ']', 4)`. -/
def cssSelectorBuilder.attr (value : String) : Builder :=
  Builder.mkB ("[" ++ value ++ "]") 4

/-- Facade entry `cssSelectorBuilder.pseudoClass(value)`: `new Builder(':' + value, 5)`. -/
def cssSelectorBuilder.pseudoClass (value : String) : Builder :=
  Builder.mkB (":" ++ value) 5

/-- Facade entry `cssSelectorBuilder.pseudoElement(value)`: `new Builder('::' + value, 6)`. -/
def cssSelectorBuilder.pseudoElement (value : String) : Builder :=
  Builder.mkB ("::" ++ value) 6

/-- Facade operation `cssSelectorBuilder.combine(selector1, combinator, selector2)`: returns the
object whose `stringify` interpolates the token between single spaces. -/
def cssSelectorBuilder.combine (selector1 : Selector) (combinator : String)
    (selector2 : Selector) : Selector :=
  Selector.combined selector1 combinator selector2

/-- The facade entry point for a given stage, dispatching to the six
`cssSelectorBuilder` entry operations. -/
def startAt : Stage → String → Builder
  | .element, v => cssSelectorBuilder.element v
  | .id, v => cssSelectorBuilder.id v
  | .cls, v => cssSelectorBuilder.cls v
  | .attr, v => cssSelectorBuilder.attr v
  | .pseudoClass, v => cssSelectorBuilder.pseudoClass v
  | .pseudoElement, v => cssSelectorBuilder.pseudoElement v

/-- Run a chain of appender calls on an accumulator, fail-fast: a thrown error
aborts the rest of the chain, returning the accumulator as the throw left it. -/
def runCalls (b : Builder) : List (Stage × String) → Builder × Option SelError
  | [] => (b, none)
  | (s, v) :: rest =>
      match b.step s v with
      | (b1, none) => runCalls b1 rest
      | (b1, some e) => (b1, some e)

/-- The stage's fixed decoration of a value, as the spec lists it: element
bare, id `#`, class `.`, attribute wrapped in `[` `]`, pseudo-class `:`,
pseudo-element `::`. -/
def Stage.decorate : Stage → String → String
  | .element, v => v
  | .id, v => "#" ++ v
  | .cls, v => "." ++ v
  | .attr, v => "[" ++ v ++ "]"
  | .pseudoClass, v => ":" ++ v
  | .pseudoElement, v => "::" ++ v

/-- Concatenation, in call order, of each call's decorated value. -/
def decorations : List (Stage × String) → String
  | [] => ""
  | p :: rest => p.1.decorate p.2 ++ decorations rest

/-- The plain-data object returned by the `Rectangle` factory: `width` and
`height` fields plus the value its `getArea()` arrow function computes. -/
structure RectangleObj where
  width : Int
  height : Int
  getArea : Int

/-- The factory `Rectangle(width, height)`: `{ width, height, getArea: () => height * width }`. -/
def Rectangle (width height : Int) : RectangleObj :=
  { width := width, height := height, getArea := height * width }

/-- The cardinality bounds of the spec's Invariant 1. -/
def countersOk (b : Builder) : Prop :=
  b.elements ≤ 1 ∧ b.ids ≤ 1 ∧ b.pseudoElements ≤ 1

/-- An accumulator state reachable through the facade: produced by some entry
point followed by a chain of appender calls none of which raised. -/
def Reachable (b : Builder) : Prop :=
  ∃ (s : Stage) (v : String) (calls : List (Stage × String)),
    runCalls (startAt s v) calls = (b, none)

/-- An observable operation on one accumulator: an appender call or a
stringify() read. -/
inductive Op where
  | call (s : Stage) (v : String)
  | stringifyOp

/-- Interpreter for a sequence of operations on one accumulator: returns the
final state, the strings returned by the stringify() reads in order, and the
first thrown error (fail-fast), if any. A stringify() read returns `values`
and performs no mutation, exactly as the source method does. -/
def runOps (b : Builder) : List Op → Builder × List String × Option SelError
  | [] => (b, [], none)
  | Op.call s v :: rest =>
      match b.step s v with
      | (b1, none) => runOps b1 rest
      | (b1, some e) => (b1, [], some e)
  | Op.stringifyOp :: rest =>
      let r := runOps b rest
      (r.1, b.stringify :: r.2.1, r.2.2)

/-- C8: Rectangle(w, h) exposes width = w, height = h and getArea() = w * h. -/
theorem c8_rectangle (w h : Int) :
    (Rectangle w h).width = w ∧ (Rectangle w h).height = h ∧
      (Rectangle w h).getArea = w * h :=
  ⟨rfl, rfl, mul_comm h w⟩

/-- C5: combine(a, t, b).stringify() = a.stringify() + ' ' + t + ' ' +
b.stringify(), and this composes under nesting:
combine(combine(a, '>', b), '~', c).stringify() =
a.stringify() + ' > ' + b.stringify() + ' ~ ' + c.stringify(). -/
theorem c5_combine_stringify (a b c : Selector) (t : String) :
    (cssSelectorBuilder.combine a t b).stringify
        = a.stringify ++ " " ++ t ++ " " ++ b.stringify ∧
    (cssSelectorBuilder.combine (cssSelectorBuilder.combine a ">" b) "~" c).stringify
        = a.stringify ++ " > " ++ b.stringify ++ " ~ " ++ c.stringify := by
  constructor
  · rfl
  · show a.stringify ++ " " ++ ">" ++ " " ++ b.stringify ++ " " ++ "~" ++ " " ++ c.stringify
        = a.stringify ++ " > " ++ b.stringify ++ " ~ " ++ c.stringify
    simp only [String.append_assoc]
    rfl

/-- C6: combine performs no validation of the combinator token: for every pair
of operand selectors and every token string it returns the combined node (a
total function: it never raises), and the token is interpolated verbatim
between single spaces in the rendered output. -/
theorem c6_combine_total (a b : Selector) (t : String) :
    cssSelectorBuilder.combine a t b = Selector.combined a t b ∧
    (cssSelectorBuilder.combine a t b).stringify
        = a.stringify ++ (" " ++ t ++ " ") ++ b.stringify := by
  refine ⟨rfl, ?_⟩
  show a.stringify ++ " " ++ t ++ " " ++ b.stringify
      = a.stringify ++ (" " ++ t ++ " ") ++ b.stringify
  simp only [String.append_assoc]

/-- C2: an appender call raises an ordering error exactly when the new stage's
number is strictly below the accumulator's `callQueue` (the number of the last
stage applied); a stage with number at least `callQueue` passes the ordering
check. In particular class after attr always raises an ordering error, and
class after class never raises. -/
theorem c2_ordering_check :
    (∀ (b : Builder) (s : Stage) (v : String),
        ((b.step s v).2 = some SelError.orderError ↔ s.num < b.callQueue)) ∧
    (∀ (b : Builder) (v : String), b.callQueue = Stage.attr.num →
        (b.step Stage.cls v).2 = some SelError.orderError) ∧
    (∀ (b : Builder) (v : String), b.callQueue = Stage.cls.num →
        (b.step Stage.cls v).2 = none) := by
  refine ⟨?_, ?_, ?_⟩
  · intro b s v
    unfold Builder.step
    cases s <;> dsimp only <;> split <;> (try split) <;> simp_all [Stage.num]
  · intro b v h
    simp [Builder.step, Stage.num, h]
  · intro b v h
    simp [Builder.step, Stage.num, h]

/-- Witness for C2 at concrete inputs: starting from attr('x'), class('y')
raises the ordering error; starting from class('x'), class('y') succeeds. -/
theorem c2_ordering_check_witness :
    ((cssSelectorBuilder.attr "x").callQueue = Stage.attr.num ∧
      ((cssSelectorBuilder.attr "x").step Stage.cls "y").2 = some SelError.orderError) ∧
    ((cssSelectorBuilder.cls "x").callQueue = Stage.cls.num ∧
      ((cssSelectorBuilder.cls "x").step Stage.cls "y").2 = none) :=
  ⟨⟨rfl, c2_ordering_check.2.1 (cssSelectorBuilder.attr "x") "y" rfl⟩,
   ⟨rfl, c2_ordering_check.2.2 (cssSelectorBuilder.cls "x") "y" rfl⟩⟩

/-- C3 counterexample: in id('a').class('b').id('c') the second id call raises
the ordering error, not a cardinality error — the claim's "regardless of which
stages were applied between the two id calls" fails. -/
theorem c3_counterexample :
    (runCalls (cssSelectorBuilder.id "a") [(Stage.cls, "b"), (Stage.id, "c")]).2
        = some SelError.orderError ∧
    (runCalls (cssSelectorBuilder.id "a") [(Stage.cls, "b"), (Stage.id, "c")]).2
        ≠ some SelError.countError := by
  exact ⟨by decide, by decide⟩

/-- C3 amended: on an accumulator that has already recorded an id
(`ids = 1`), a further id call always raises: an ordering error when a later
stage has been applied since (`callQueue > 2`), and otherwise — in particular
when the two id calls are adjacent — a cardinality error. -/
theorem c3_second_id_raises (b : Builder) (v : String) (h : b.ids = 1) :
    (b.step Stage.id v).2 =
      if 2 < b.callQueue then some SelError.orderError
      else some SelError.countError := by
  unfold Builder.step
  simp only [Stage.num, h]
  split <;> simp

/-- Witness for C3 amended: id('a') followed immediately by id('b') raises the
cardinality error. -/
theorem c3_second_id_raises_witness :
    (cssSelectorBuilder.id "a").ids = 1 ∧
    ((cssSelectorBuilder.id "a").step Stage.id "b").2 =
      (if 2 < (cssSelectorBuilder.id "a").callQueue then some SelError.orderError
       else some SelError.countError) :=
  ⟨rfl, c3_second_id_raises (cssSelectorBuilder.id "a") "b" rfl⟩

/-- C4 counterexample: after element('div').id('main'), calling
element('span') raises the ordering error, not a cardinality error. -/
theorem c4_counterexample :
    (runCalls (cssSelectorBuilder.element "div")
        [(Stage.id, "main"), (Stage.element, "span")]).2 = some SelError.orderError ∧
    (runCalls (cssSelectorBuilder.element "div")
        [(Stage.id, "main"), (Stage.element, "span")]).2 ≠ some SelError.countError := by
  exact ⟨by decide, by decide⟩

/-- C4 amended: element('div').id('main') builds without error and stringifies
to 'div#main'; calling element('span') on that same accumulator raises an
ordering error (checkQueue fires, since element precedes the last stage id,
before the element counter is ever examined). -/
theorem c4_element_after_id :
    (runCalls (cssSelectorBuilder.element "div") [(Stage.id, "main")]).2 = none ∧
    (runCalls (cssSelectorBuilder.element "div") [(Stage.id, "main")]).1.stringify
        = "div#main" ∧
    ((runCalls (cssSelectorBuilder.element "div") [(Stage.id, "main")]).1.step
        Stage.element "span").2 = some SelError.orderError := by
  exact ⟨by decide, by decide, by decide⟩

/-- A successful appender call, described uniformly over the stages: when the
ordering check passes and the relevant singleton counter is still 0, the call
returns no error, bumps only that stage's counter, advances `callQueue` to the
stage's number and appends the stage-decorated value. -/
theorem step_ok (b : Builder) (s : Stage) (v : String)
    (hq : b.callQueue ≤ s.num)
    (he : s = Stage.element → b.elements = 0)
    (hi : s = Stage.id → b.ids = 0)
    (hp : s = Stage.pseudoElement → b.pseudoElements = 0) :
    b.step s v =
      ({ elements := b.elements + (if s = Stage.element then 1 else 0),
         ids := b.ids + (if s = Stage.id then 1 else 0),
         pseudoElements := b.pseudoElements + (if s = Stage.pseudoElement then 1 else 0),
         callQueue := s.num,
         values := b.values ++ s.decorate v }, none) := by
  have hnotlt : ¬ s.num < b.callQueue := Nat.not_lt.mpr hq
  cases s <;>
    simp_all [Builder.step, Stage.num, Stage.decorate, String.append_assoc]

/-- Invariant lemma behind C1: a chain of calls whose stage numbers ascend
from the accumulator's current `callQueue`, and whose singleton-stage uses fit
within the counter budget, runs with no error and appends exactly the
decorated values in call order. -/
theorem runCalls_valid (calls : List (Stage × String)) :
    ∀ b : Builder,
      List.Chain (fun x y => x ≤ y) b.callQueue (calls.map fun p => p.1.num) →
      b.elements + (calls.map Prod.fst).count Stage.element ≤ 1 →
      b.ids + (calls.map Prod.fst).count Stage.id ≤ 1 →
      b.pseudoElements + (calls.map Prod.fst).count Stage.pseudoElement ≤ 1 →
      (runCalls b calls).2 = none ∧
      (runCalls b calls).1.values = b.values ++ decorations calls := by
  induction calls with
  | nil =>
      intro b _ _ _ _
      exact ⟨rfl, by simp [runCalls, decorations]⟩
  | cons p rest ih =>
      obtain ⟨s, v⟩ := p
      intro b hchain he hi hp
      simp only [List.map_cons, List.chain_cons] at hchain
      obtain ⟨hq, hchain2⟩ := hchain
      simp only [List.map_cons, List.count_cons, beq_iff_eq] at he hi hp
      have heZ : s = Stage.element → b.elements = 0 := by
        intro h; rw [h] at he; simp at he; omega
      have hiZ : s = Stage.id → b.ids = 0 := by
        intro h; rw [h] at hi; simp at hi; omega
      have hpZ : s = Stage.pseudoElement → b.pseudoElements = 0 := by
        intro h; rw [h] at hp; simp at hp; omega
      have hstep := step_ok b s v hq heZ hiZ hpZ
      have hrun : runCalls b ((s, v) :: rest) =
          runCalls { elements := b.elements + (if s = Stage.element then 1 else 0),
                     ids := b.ids + (if s = Stage.id then 1 else 0),
                     pseudoElements :=
                       b.pseudoElements + (if s = Stage.pseudoElement then 1 else 0),
                     callQueue := s.num,
                     values := b.values ++ s.decorate v } rest := by
        rw [runCalls, hstep]
      obtain ⟨ih1, ih2⟩ := ih
        { elements := b.elements + (if s = Stage.element then 1 else 0),
          ids := b.ids + (if s = Stage.id then 1 else 0),
          pseudoElements := b.pseudoElements + (if s = Stage.pseudoElement then 1 else 0),
          callQueue := s.num,
          values := b.values ++ s.decorate v }
        hchain2
        (by dsimp only; generalize (if s = Stage.element then 1 else 0) = k at he ⊢; omega)
        (by dsimp only; generalize (if s = Stage.id then 1 else 0) = k at hi ⊢; omega)
        (by dsimp only;
            generalize (if s = Stage.pseudoElement then 1 else 0) = k at hp ⊢; omega)
      refine ⟨by rw [hrun]; exact ih1, ?_⟩
      rw [hrun, ih2]
      simp [decorations, String.append_assoc]

/-- The fields of a freshly constructed accumulator: `callQueue` is the entry
stage's number, `values` is the entry stage's decorated value, and the
counters record one use of the entry stage when it is a singleton stage. -/
theorem startAt_fields (s : Stage) (v : String) :
    (startAt s v).callQueue = s.num ∧
    (startAt s v).values = s.decorate v ∧
    (startAt s v).elements = (if s = Stage.element then 1 else 0) ∧
    (startAt s v).ids = (if s = Stage.id then 1 else 0) ∧
    (startAt s v).pseudoElements = (if s = Stage.pseudoElement then 1 else 0) := by
  cases s <;>
    simp [startAt, Builder.mkB, Stage.num, Stage.decorate,
      cssSelectorBuilder.element, cssSelectorBuilder.id, cssSelectorBuilder.cls,
      cssSelectorBuilder.attr, cssSelectorBuilder.pseudoClass,
      cssSelectorBuilder.pseudoElement]

/-- C1: for every chain that starts from a facade entry point at any stage and
continues through chained appends, if the stage numbers respect the grammar
order (ascending from the entry stage) and each of element, id and
pseudo-element occurs at most once in the whole chain, then no call raises and
stringify() returns the concatenation, in call order, of each call's value
decorated with its stage's fixed token. -/
theorem c1_stringify_concat (s0 : Stage) (v0 : String) (calls : List (Stage × String))
    (hord : List.Chain (fun x y => x ≤ y) s0.num (calls.map fun p => p.1.num))
    (he : (((s0, v0) :: calls).map Prod.fst).count Stage.element ≤ 1)
    (hi : (((s0, v0) :: calls).map Prod.fst).count Stage.id ≤ 1)
    (hp : (((s0, v0) :: calls).map Prod.fst).count Stage.pseudoElement ≤ 1) :
    (runCalls (startAt s0 v0) calls).2 = none ∧
    (runCalls (startAt s0 v0) calls).1.stringify = decorations ((s0, v0) :: calls) := by
  obtain ⟨hq, hv, hel, hid, hpe⟩ := startAt_fields s0 v0
  simp only [List.map_cons, List.count_cons, beq_iff_eq] at he hi hp
  have h := runCalls_valid calls (startAt s0 v0)
    (by rw [hq]; exact hord)
    (by rw [hel]; generalize (if s0 = Stage.element then 1 else 0) = k at he ⊢; omega)
    (by rw [hid]; generalize (if s0 = Stage.id then 1 else 0) = k at hi ⊢; omega)
    (by rw [hpe]; generalize (if s0 = Stage.pseudoElement then 1 else 0) = k at hp ⊢; omega)
  refine ⟨h.1, ?_⟩
  show (runCalls (startAt s0 v0) calls).1.values = _
  rw [h.2, hv]
  rfl

/-- Witness for C1: id('main').class('container').class('editable') builds
without error and stringifies to the decorated concatenation
('#main.container.editable'). -/
theorem c1_stringify_concat_witness :
    ((runCalls (startAt Stage.id "main")
        [(Stage.cls, "container"), (Stage.cls, "editable")]).2 = none ∧
      (runCalls (startAt Stage.id "main")
        [(Stage.cls, "container"), (Stage.cls, "editable")]).1.stringify
        = decorations [(Stage.id, "main"), (Stage.cls, "container"),
            (Stage.cls, "editable")]) ∧
    decorations [(Stage.id, "main"), (Stage.cls, "container"), (Stage.cls, "editable")]
      = "#main.container.editable" :=
  ⟨c1_stringify_concat Stage.id "main" [(Stage.cls, "container"), (Stage.cls, "editable")]
      (by simp [List.chain_cons, Stage.num]) (by decide) (by decide) (by decide),
    by decide⟩

/-- C7 counterexample: after element('a'), a second element call raises the
cardinality error, yet the surviving accumulator's element counter is 2 — the
claimed bound `elementCount ≤ 1` fails after a call that raises. -/
theorem c7_counterexample :
    ((cssSelectorBuilder.element "a").step Stage.element "b").2
        = some SelError.countError ∧
    ((cssSelectorBuilder.element "a").step Stage.element "b").1.elements = 2 := by
  exact ⟨by decide, by decide⟩

/-- Preservation half of the amended C7: a call that returns normally keeps
every counter within the bound. -/
theorem step_countersOk (b : Builder) (s : Stage) (v : String)
    (hok : countersOk b) (hnone : (b.step s v).2 = none) :
    countersOk (b.step s v).1 := by
  obtain ⟨h1, h2, h3⟩ := hok
  cases s with
  | element =>
      by_cases hlt : Stage.element.num < b.callQueue
      · simp [Builder.step, hlt] at hnone
      · by_cases hc : b.elements + 1 > 1
        · simp [Builder.step, hlt, hc] at hnone
        · simp [Builder.step, hlt, hc, countersOk]
          omega
  | id =>
      by_cases hlt : Stage.id.num < b.callQueue
      · simp [Builder.step, hlt] at hnone
      · by_cases hc : b.ids + 1 > 1
        · simp [Builder.step, hlt, hc] at hnone
        · simp [Builder.step, hlt, hc, countersOk]
          omega
  | cls =>
      by_cases hlt : Stage.cls.num < b.callQueue
      · simp [Builder.step, hlt] at hnone
      · simp [Builder.step, hlt, countersOk]
        omega
  | attr =>
      by_cases hlt : Stage.attr.num < b.callQueue
      · simp [Builder.step, hlt] at hnone
      · simp [Builder.step, hlt, countersOk]
        omega
  | pseudoClass =>
      by_cases hlt : Stage.pseudoClass.num < b.callQueue
      · simp [Builder.step, hlt] at hnone
      · simp [Builder.step, hlt, countersOk]
        omega
  | pseudoElement =>
      by_cases hlt : Stage.pseudoElement.num < b.callQueue
      · simp [Builder.step, hlt] at hnone
      · by_cases hc : b.pseudoElements + 1 > 1
        · simp [Builder.step, hlt, hc] at hnone
        · simp [Builder.step, hlt, hc, countersOk]
          omega

/-- C7 amended: the counters satisfy `elements ≤ 1`, `ids ≤ 1`,
`pseudoElements ≤ 1` after construction and after every append call that does
not raise; an append of a singleton stage whose counter is already 1 (and
which passes the ordering check) raises the cardinality error — but that
failed call leaves the counter at 2, so the bound holds only at the
non-raising points, not "at all times". -/
theorem c7_counter_bounds :
    (∀ (s : Stage) (v : String), countersOk (startAt s v)) ∧
    (∀ (b : Builder) (s : Stage) (v : String),
        countersOk b → (b.step s v).2 = none → countersOk (b.step s v).1) ∧
    (∀ (b : Builder) (v : String), b.callQueue ≤ Stage.element.num →
        b.elements = 1 →
        (b.step Stage.element v).2 = some SelError.countError) ∧
    (∀ (b : Builder) (v : String), b.callQueue ≤ Stage.id.num → b.ids = 1 →
        (b.step Stage.id v).2 = some SelError.countError) ∧
    (∀ (b : Builder) (v : String), b.callQueue ≤ Stage.pseudoElement.num →
        b.pseudoElements = 1 →
        (b.step Stage.pseudoElement v).2 = some SelError.countError) := by
  refine ⟨?_, step_countersOk, ?_, ?_, ?_⟩
  · intro s v
    cases s <;>
      simp [countersOk, startAt, Builder.mkB, cssSelectorBuilder.element,
        cssSelectorBuilder.id, cssSelectorBuilder.cls, cssSelectorBuilder.attr,
        cssSelectorBuilder.pseudoClass, cssSelectorBuilder.pseudoElement]
  · intro b v hq h1
    have hq1 : b.callQueue ≤ 1 := hq
    have hn : ¬ 1 < b.callQueue := by omega
    simp [Builder.step, Stage.num, hn, h1]
  · intro b v hq h1
    have hq1 : b.callQueue ≤ 2 := hq
    have hn : ¬ 2 < b.callQueue := by omega
    simp [Builder.step, Stage.num, hn, h1]
  · intro b v hq h1
    have hq1 : b.callQueue ≤ 6 := hq
    have hn : ¬ 6 < b.callQueue := by omega
    simp [Builder.step, Stage.num, hn, h1]

/-- Witness for the amended C7 at concrete inputs: the entry accumulator of
element('a') satisfies the bounds, still satisfies them after class('b'), and
a second element call on it raises the cardinality error. -/
theorem c7_counter_bounds_witness :
    countersOk (startAt Stage.element "a") ∧
    (((cssSelectorBuilder.element "a").step Stage.cls "b").2 = none ∧
      countersOk ((cssSelectorBuilder.element "a").step Stage.cls "b").1) ∧
    ((cssSelectorBuilder.element "a").step Stage.element "b").2
        = some SelError.countError :=
  have hok : countersOk (cssSelectorBuilder.element "a") :=
    c7_counter_bounds.1 Stage.element "a"
  ⟨c7_counter_bounds.1 Stage.element "a",
    ⟨by decide,
      c7_counter_bounds.2.1 (cssSelectorBuilder.element "a") Stage.cls "b" hok (by decide)⟩,
    c7_counter_bounds.2.2.1 (cssSelectorBuilder.element "a") "b" (by decide) (by decide)⟩

/-- A chain of calls that completes without raising preserves the counter
bounds. -/
theorem runCalls_countersOk (calls : List (Stage × String)) :
    ∀ b b' : Builder, countersOk b → runCalls b calls = (b', none) → countersOk b' := by
  induction calls with
  | nil =>
      intro b b' hok h
      rw [runCalls] at h
      obtain ⟨rfl, -⟩ := Prod.mk.injEq .. ▸ h
      exact hok
  | cons p rest ih =>
      obtain ⟨s, v⟩ := p
      intro b b' hok h
      rw [runCalls] at h
      rcases hsv : b.step s v with ⟨b1, e⟩
      rw [hsv] at h
      cases e with
      | none =>
          refine ih b1 b' ?_ h
          have := step_countersOk b s v hok (by rw [hsv])
          rwa [hsv] at this
      | some e => simp at h
  
/-- Every facade-reachable accumulator satisfies the counter bounds. -/
theorem reachable_countersOk (b : Builder) (h : Reachable b) : countersOk b := by
  obtain ⟨s, v, calls, hrun⟩ := h
  refine runCalls_countersOk calls (startAt s v) b ?_ hrun
  cases s <;>
    simp [countersOk, startAt, Builder.mkB, cssSelectorBuilder.element,
      cssSelectorBuilder.id, cssSelectorBuilder.cls, cssSelectorBuilder.attr,
      cssSelectorBuilder.pseudoClass, cssSelectorBuilder.pseudoElement]

/-- C9: on any facade-reachable accumulator, an appender call that raises
leaves `values` (the rendered text) unchanged; when the error is the ordering
error the entire accumulator state is unchanged; when the error is the
cardinality error the corresponding counter has been incremented to exactly 2
and `callQueue` has already advanced to the failing stage's number. -/
theorem c9_error_frame (b : Builder) (s : Stage) (v : String) (h : Reachable b) :
    ((b.step s v).2 ≠ none → (b.step s v).1.values = b.values) ∧
    ((b.step s v).2 = some SelError.orderError → (b.step s v).1 = b) ∧
    ((b.step s v).2 = some SelError.countError →
      (b.step s v).1.callQueue = s.num ∧
      ((s = Stage.element ∧ (b.step s v).1.elements = 2) ∨
        (s = Stage.id ∧ (b.step s v).1.ids = 2) ∨
        (s = Stage.pseudoElement ∧ (b.step s v).1.pseudoElements = 2))) := by
  obtain ⟨h1, h2, h3⟩ := reachable_countersOk b h
  refine ⟨?_, ?_, ?_⟩
  · intro herr
    cases s with
    | element =>
        by_cases hlt : Stage.element.num < b.callQueue
        · simp [Builder.step, hlt]
        · by_cases hc : b.elements + 1 > 1
          · simp [Builder.step, hlt, hc]
          · simp [Builder.step, hlt, hc] at herr
    | id =>
        by_cases hlt : Stage.id.num < b.callQueue
        · simp [Builder.step, hlt]
        · by_cases hc : b.ids + 1 > 1
          · simp [Builder.step, hlt, hc]
          · simp [Builder.step, hlt, hc] at herr
    | cls =>
        by_cases hlt : Stage.cls.num < b.callQueue
        · simp [Builder.step, hlt]
        · simp [Builder.step, hlt] at herr
    | attr =>
        by_cases hlt : Stage.attr.num < b.callQueue
        · simp [Builder.step, hlt]
        · simp [Builder.step, hlt] at herr
    | pseudoClass =>
        by_cases hlt : Stage.pseudoClass.num < b.callQueue
        · simp [Builder.step, hlt]
        · simp [Builder.step, hlt] at herr
    | pseudoElement =>
        by_cases hlt : Stage.pseudoElement.num < b.callQueue
        · simp [Builder.step, hlt]
        · by_cases hc : b.pseudoElements + 1 > 1
          · simp [Builder.step, hlt, hc]
          · simp [Builder.step, hlt, hc] at herr
  · intro herr
    by_cases hlt : s.num < b.callQueue
    · simp [Builder.step, hlt]
    · exfalso
      cases s <;> simp [Builder.step, hlt] at herr <;>
        split at herr <;> simp at herr
  · intro herr
    cases s with
    | element =>
        by_cases hlt : Stage.element.num < b.callQueue
        · simp [Builder.step, hlt] at herr
        · by_cases hc : b.elements + 1 > 1
          · simp only [Builder.step, if_neg hlt, if_pos hc]
            simp
            omega
          · simp [Builder.step, hlt, hc] at herr
    | id =>
        by_cases hlt : Stage.id.num < b.callQueue
        · simp [Builder.step, hlt] at herr
        · by_cases hc : b.ids + 1 > 1
          · simp only [Builder.step, if_neg hlt, if_pos hc]
            simp
            omega
          · simp [Builder.step, hlt, hc] at herr
    | cls =>
        by_cases hlt : Stage.cls.num < b.callQueue
        · simp [Builder.step, hlt] at herr
        · simp [Builder.step, hlt] at herr
    | attr =>
        by_cases hlt : Stage.attr.num < b.callQueue
        · simp [Builder.step, hlt] at herr
        · simp [Builder.step, hlt] at herr
    | pseudoClass =>
        by_cases hlt : Stage.pseudoClass.num < b.callQueue
        · simp [Builder.step, hlt] at herr
        · simp [Builder.step, hlt] at herr
    | pseudoElement =>
        by_cases hlt : Stage.pseudoElement.num < b.callQueue
        · simp [Builder.step, hlt] at herr
        · by_cases hc : b.pseudoElements + 1 > 1
          · simp only [Builder.step, if_neg hlt, if_pos hc]
            simp
            omega
          · simp [Builder.step, hlt, hc] at herr

/-- Witness for C9: the entry accumulator of element('div') is reachable, and
a second element call on it (which raises) leaves `values` at 'div'. -/
theorem c9_error_frame_witness :
    Reachable (cssSelectorBuilder.element "div") ∧
    (((cssSelectorBuilder.element "div").step Stage.element "span").2 ≠ none →
      ((cssSelectorBuilder.element "div").step Stage.element "span").1.values
        = (cssSelectorBuilder.element "div").values) :=
  have hr : Reachable (cssSelectorBuilder.element "div") :=
    ⟨Stage.element, "div", [], rfl⟩
  ⟨hr, (c9_error_frame (cssSelectorBuilder.element "div") Stage.element "span" hr).1⟩

/-- C10: stringify() never raises, mutates no field, and is deterministic:
prepending a stringify() read to any operation sequence merely emits the
current `values` and leaves the sequence's final state and error behavior
exactly unchanged; in particular two consecutive stringify() reads return
identical strings, raise nothing, and leave the accumulator intact. -/
theorem c10_stringify_pure (b : Builder) (ops : List Op) :
    runOps b (Op.stringifyOp :: ops) =
      ((runOps b ops).1, b.values :: (runOps b ops).2.1, (runOps b ops).2.2) ∧
    runOps b [Op.stringifyOp, Op.stringifyOp] = (b, [b.values, b.values], none) :=
  ⟨rfl, rfl⟩
